import Mathlib

/-!
Shallow embedding of the per-frame simulation and state-management core of
`src/main.ts` (the "no-escape" dungeon game): the sanity resource, the dread
message scheduler, the enemy pursuit/teleport logic, player locomotion, the
atmosphere mapping, and the lose transition, together with an event-trace
semantics for the single-threaded cooperative scheduling of frame callbacks
and timers.

Modelling conventions:
- JS numbers are modelled as real numbers (`ℝ`); geometry uses a `Vec3`
  record mirroring Babylon's `Vector3` (length = sqrt of sum of squares,
  `normalize` divides by the length).
- Per-frame nondeterministic inputs (delta time, `Math.random()` samples,
  the camera direction vectors, held keys, and the swept-collision resolver
  `moveWithCollisions`, which is an external collaborator) are supplied in a
  `FrameInput` record.
- Timers (`setInterval` for the dread loop, the message fade-out
  `setTimeout`, the 900 ms ending `setTimeout`) never run concurrently with
  a frame; an execution is a list of events (frame ticks and timer firings)
  folded over the state, mirroring the cooperative event loop.
- DOM-only details (HUD segment classes, boot log, overlay pixel positions,
  the `\n` → `<br>` formatting of the emitted message, timer-display
  caching via `lastTimerSec`/`lastSanityInt`) and pure audio/animation
  playback are omitted; booleans track the observable signals
  (`stompPlaying`, `overlayVisible`, `endingShown`).
- `playEndingCount` and `emittedIdx` are ghost instrumentation fields: they
  count calls of `playEnding` and record the script indices of emitted
  messages, and influence nothing.
-/

open scoped Classical

noncomputable section

/-- Three-dimensional vector, mirroring Babylon's `Vector3`. -/
@[ext]
structure Vec3 where
  x : ℝ
  y : ℝ
  z : ℝ

def vadd (a b : Vec3) : Vec3 := ⟨a.x + b.x, a.y + b.y, a.z + b.z⟩

def vsub (a b : Vec3) : Vec3 := ⟨a.x - b.x, a.y - b.y, a.z - b.z⟩

def vscale (c : ℝ) (v : Vec3) : Vec3 := ⟨c * v.x, c * v.y, c * v.z⟩

/-- `Vector3.length()`. -/
def norm3 (v : Vec3) : ℝ := Real.sqrt (v.x ^ 2 + v.y ^ 2 + v.z ^ 2)

/-- `Vector3.normalize()`: divide by the length. -/
def vnormalize (v : Vec3) : Vec3 := vscale (1 / norm3 v) v

/-- Game-state: the module-level mutable variables of `main()` in
`src/main.ts`, plus the mutable scene objects the core writes
(post-processing pipeline parameters, lights, camera), plus the pending
timer slots, plus two ghost fields (`emittedIdx`, `playEndingCount`). -/
structure GameState where
  sanity : ℝ
  gameStarted : Bool
  gameOver : Bool
  survivalTime : ℝ
  flickerTime : ℝ
  dreadIndex : ℕ
  dreadLoopActive : Bool          -- the `setInterval` handle of startDreadLoop
  fadeOutPending : Option ℕ       -- `fadeOutTimeout` slot (payload: displayTime, ms)
  overlayVisible : Bool           -- dread overlay `dread-visible` class
  overlayText : String            -- dread overlay text content
  emittedIdx : List ℕ             -- ghost: script indices emitted so far
  demonPlayed : Bool
  endingPending : Bool            -- the `setTimeout(() => playEnding(), 900)` slot
  endingShown : Bool              -- ending overlay `active` class
  playEndingCount : ℕ             -- ghost: number of playEnding() calls
  stompPlaying : Bool
  wasMoving : Bool
  playerPos : Vec3                -- rootMesh.position
  e1 : Vec3                       -- enemies[0].root.position
  e2 : Vec3                       -- enemies[1].root.position
  e3 : Vec3                       -- enemies[2].root.position
  enemyDist : ℝ                   -- the `enemyDist` mutable (init 999)
  torchIntensity : ℝ
  torchRange : ℝ
  fogDensity : ℝ
  vignetteWeight : ℝ
  aberration : ℝ                  -- pipeline.chromaticAberration.aberrationAmount
  grain : ℝ                       -- pipeline.grain.intensity
  cameraAlpha : ℝ
  cameraBeta : ℝ
  cameraTarget : Vec3
  torchPos : Vec3                 -- torchLight.position
  coldPos : Vec3                  -- coldFill.position

/-- The inputs a single frame callback consumes from collaborators:
delta time, the `Math.random()` samples drawn this frame (flicker, two
camera-shake samples, and an (angle, radius) pair per enemy for a possible
teleport), the held-key snapshot, the camera direction vectors, and the
swept-collision move primitive (`moveWithCollisions`): given the current
position and the requested displacement it returns the resolved position. -/
structure FrameInput where
  dt : ℝ
  randFlicker : ℝ
  randShakeA : ℝ
  randShakeB : ℝ
  u11 : ℝ
  u12 : ℝ
  u21 : ℝ
  u22 : ℝ
  u31 : ℝ
  u32 : ℝ
  keyW : Bool
  keyS : Bool
  keyA : Bool
  keyD : Bool
  camFwd : Vec3
  camRight : Vec3
  resolve : Vec3 → Vec3 → Vec3

def DREAD_TIME_INTERVAL : ℕ := 6500

def MOVE_SPEED : ℝ := 1.2

def SANITY_DRAIN_PER_MESSAGE : ℝ := 9

def STOMP_NEAR : ℝ := 9

def TELEPORT_FAR : ℝ := 17

/-- The 16 scripted dread messages (apostrophes written as `\x27`). -/
def DREAD_MESSAGES : List String :=
  [ "Use W A S D to move.\nThere is no way out.",
    "There are three of them.\nYou noticed.",
    "You\x27re faster than they are.\nFor now.",
    "This is level 1.\nThere are no other levels.",
    "You\x27re doing well.\nSubject 491 also did well.",
    "The health bar is called NEURAL SYNC.\nAsk yourself why.",
    "Stop running for one second.\nWhat are you actually afraid of?",
    "They don\x27t know they\x27re chasing you.\nThey just follow the code.\nSo do you.",
    "You chose to click.\nOr did the thought arrive\nand you just obeyed it?",
    "You are 37 trillion cells\ntrying to survive a dungeon\nbuilt in a text editor.",
    "Right now your heart is beating.\nYou didn\x27t ask it to.\nIt doesn\x27t ask you.",
    "You\x27ve never seen your own face.\nOnly reflections.\nCopies of copies of copies.",
    "When you die here, you\x27ll close the tab.\nWhen you die out there,\nnobody closes the tab.",
    "The dungeon is infinite.\nSo is the space\nbetween your thoughts.",
    "She\x27s not trapped in here.\nYou put her here.\nAnd you keep coming back.",
    "..." ]

/-- Default for out-of-range script access (unreachable under the guard). -/
def defaultMsg : String := ""

/-- `playEnding()`: sets gameOver, stops the stomp loop, shows the ending
overlay (the survival-time caption is DOM-only and omitted). The ghost
counter records the call. -/
def playEnding (s : GameState) : GameState :=
  { s with gameOver := true, stompPlaying := false, endingShown := true,
           playEndingCount := s.playEndingCount + 1 }

/-- `triggerDreadMessage()`: guarded on gameOver and script exhaustion;
cancels any pending fade-out timer, emits the message at the cursor,
advances the cursor, drains sanity clamped at 0, and schedules a new
fade-out timer with duration `min(6000, 2500 + msg.length * 45)`. -/
def triggerDreadMessage (s : GameState) : GameState :=
  if s.gameOver then s
  else if DREAD_MESSAGES.length ≤ s.dreadIndex then s
  else
    let msg := DREAD_MESSAGES.getD s.dreadIndex defaultMsg
    let displayTime := min 6000 (2500 + msg.length * 45)
    { s with
      overlayText := msg,
      overlayVisible := true,
      emittedIdx := s.emittedIdx ++ [s.dreadIndex],
      dreadIndex := s.dreadIndex + 1,
      sanity := max 0 (s.sanity - SANITY_DRAIN_PER_MESSAGE),
      fadeOutPending := some displayTime }

/-- One firing of the `setInterval` callback installed by `startDreadLoop()`:
if the game is over or the script is exhausted the interval clears itself,
otherwise it triggers a dread message. -/
def dreadLoopTick (s : GameState) : GameState :=
  if s.gameOver = true ∨ DREAD_MESSAGES.length ≤ s.dreadIndex then
    { s with dreadLoopActive := false }
  else triggerDreadMessage s

/-- Per-enemy update inside the frame callback's enemy loop (lines 649-679):
returns (new position, the distance sampled this frame, whether the contact
branch was reached). Teleport recovery if the distance exceeds
`TELEPORT_FAR`; chase if it exceeds 0.5; otherwise contact (the
demonPlayed gating is applied by the caller). -/
def enemyFrame (player : Vec3) (speed df dt u1 u2 : ℝ) (pos : Vec3) :
    Vec3 × ℝ × Bool :=
  let d := vsub player pos
  let edist := norm3 d
  if TELEPORT_FAR < edist then
    let angle := u1 * (Real.pi * 2)
    let r := 9 + u2 * 5
    (⟨player.x + Real.cos angle * r, 0, player.z + Real.sin angle * r⟩,
      edist, false)
  else if 0.5 < edist then
    let step := speed * (1 + df * 0.6) * dt
    let n := vnormalize d
    let mv : Vec3 := ⟨n.x * step, 0, n.z * step⟩
    (⟨pos.x + mv.x, 0, pos.z + mv.z⟩, edist, false)
  else (pos, edist, true)

/-- The sanity-reactive atmosphere section of the frame callback (lines
577-632), which runs before the phase gate: flicker accumulation, torch,
fog, post-processing parameters, camera shake, and camera/torch tracking
of the player. Light-colour channels, cold-fill intensity/range, vignette
colour/stretch, exposure and contrast are analogous and omitted. -/
def stepAtmos (inp : FrameInput) (s : GameState) : GameState :=
  let ft := s.flickerTime + inp.dt
  let df := 1 - s.sanity / 100
  let baseFlicker := 0.75 + Real.sin (ft * 7) * 0.1 + Real.sin (ft * 19) * 0.05
      + Real.sin (ft * 3.3) * 0.04
  let panicFlicker := inp.randFlicker * 0.2 * df
  let df2 := df * df
  let torchPulse := Real.sin (ft * 2) * 0.5
  let prox := max 0 (1 - s.enemyDist / 7)
  let proximityShake := max 0 (1 - s.enemyDist / 5) * 0.009
  let shakeAmt := df2 * 0.002 + proximityShake
  { s with
    flickerTime := ft,
    torchIntensity := (baseFlicker + panicFlicker) * 2.6,
    torchRange := 8 - df * 3.5,
    fogDensity := 0.055 + df * 0.07,
    vignetteWeight := 5 + torchPulse * 0.4 + df2 * 14 + prox * 22,
    aberration := 3 + df2 * 18 + prox * 12,
    grain := 8 + df2 * 25 + prox * 10,
    cameraAlpha := s.cameraAlpha + (inp.randShakeA - 0.5) * shakeAmt,
    cameraBeta := s.cameraBeta + (inp.randShakeB - 0.5) * shakeAmt * 0.4,
    cameraTarget := ⟨s.playerPos.x, s.playerPos.y + 0.5, s.playerPos.z⟩,
    torchPos := ⟨s.playerPos.x, s.playerPos.y + 1.2, s.playerPos.z⟩ }

/-- The chromatic-aberration law the frame applies (line 614), as a
function of the sanity value and of the `enemyDist` value it reads. -/
def aberrationAmount (sanity enemyDist : ℝ) : ℝ :=
  3 + (1 - sanity / 100) * (1 - sanity / 100) * 18
    + max 0 (1 - enemyDist / 7) * 12

/-- The `minEnemyDist` accumulator of the enemy loop: starts at 999 and
takes each sampled distance if smaller (line 653). -/
def minDist3 (a b c : ℝ) : ℝ :=
  let m1 := if a < 999 then a else (999 : ℝ)
  let m2 := if b < m1 then b else m1
  if c < m2 then c else m2

/-- The enemy-chase section (lines 644-681): updates the three enemies in
order with the per-frame minimum distance accumulator starting at 999, the
one-shot demonPlayed latch and the scheduling of the 900 ms ending
timeout on first contact, then stores the minimum into `enemyDist`. -/
def stepEnemies (inp : FrameInput) (s : GameState) : GameState :=
  let df := 1 - s.sanity / 100
  let r1 := enemyFrame s.playerPos 0.95 df inp.dt inp.u11 inp.u12 s.e1
  let r2 := enemyFrame s.playerPos 1.15 df inp.dt inp.u21 inp.u22 s.e2
  let r3 := enemyFrame s.playerPos 1.35 df inp.dt inp.u31 inp.u32 s.e3
  let m3 := minDist3 r1.2.1 r2.2.1 r3.2.1
  let fire1 := r1.2.2 && !s.demonPlayed
  let dp1 := s.demonPlayed || r1.2.2
  let fire2 := r2.2.2 && !dp1
  let dp2 := dp1 || r2.2.2
  let fire3 := r3.2.2 && !dp2
  let dp3 := dp2 || r3.2.2
  { s with
    e1 := r1.1, e2 := r2.1, e3 := r3.1,
    demonPlayed := dp3,
    endingPending := s.endingPending || fire1 || fire2 || fire3,
    enemyDist := m3 }

/-- Stomp-sound gating (lines 684-688). -/
def stepStomp (s : GameState) : GameState :=
  if s.enemyDist < STOMP_NEAR then { s with stompPlaying := true }
  else { s with stompPlaying := false }

/-- The summed direction vector from held keys and the camera vectors with
vertical component zeroed and re-normalized (lines 691-715). -/
def moveInputSum (inp : FrameInput) : Vec3 :=
  let fwd := vnormalize ⟨inp.camFwd.x, 0, inp.camFwd.z⟩
  let right := vnormalize ⟨inp.camRight.x, 0, inp.camRight.z⟩
  let v0 : Vec3 := ⟨0, 0, 0⟩
  let v1 := if inp.keyW then vadd v0 fwd else v0
  let v2 := if inp.keyS then vsub v1 fwd else v1
  let v3 := if inp.keyA then vsub v2 right else v2
  let v4 := if inp.keyD then vadd v3 right else v3
  v4

def isMovingInput (inp : FrameInput) : Bool :=
  inp.keyW || inp.keyS || inp.keyA || inp.keyD

/-- The desired displacement before the gravity bias: the normalized key
sum scaled by `MOVE_SPEED * dt` (line 718). -/
def desiredMove (inp : FrameInput) : Vec3 :=
  vscale (MOVE_SPEED * inp.dt) (vnormalize (moveInputSum inp))

/-- The movement section (lines 690-750): when moving, the desired move
with its y component replaced by the -0.08 gravity bias goes through the
swept-collision resolver, then the position is clamped to the ground plane
(y set to 0 whenever it ended above 0); when idle the same is done with a
gravity-only move. Facing (`lookAt`) and animation switching are
rendering-collaborator signals beyond `wasMoving` and are omitted. -/
def stepMove (inp : FrameInput) (s : GameState) : GameState :=
  if isMovingInput inp then
    let dm := desiredMove inp
    let mv : Vec3 := ⟨dm.x, -0.08, dm.z⟩
    let p := inp.resolve s.playerPos mv
    let p2 := if 0 < p.y then (⟨p.x, 0, p.z⟩ : Vec3) else p
    { s with playerPos := p2, wasMoving := true }
  else
    let p := inp.resolve s.playerPos ⟨0, -0.08, 0⟩
    let p2 := if 0 < p.y then (⟨p.x, 0, p.z⟩ : Vec3) else p
    { s with playerPos := p2, wasMoving := false }

/-- One firing of the `scene.onBeforeRenderObservable` frame callback
(lines 577-787), in source order: atmosphere and camera/torch tracking
first, then the phase gate (`!gameStarted || gameOver` returns early),
then the survival timer, enemy chase, stomp gating, movement, the lose
check, and the cold-fill follow (which uses the player position captured
before the movement section, lines 624-626 and 785). -/
def frame (inp : FrameInput) (s : GameState) : GameState :=
  let s1 := stepAtmos inp s
  let p0 := s.playerPos
  if !s1.gameStarted || s1.gameOver then s1
  else
    let s2 := { s1 with survivalTime := s1.survivalTime + inp.dt }
    let s3 := stepEnemies inp s2
    let s4 := stepStomp s3
    let s5 := stepMove inp s4
    let s6 := if s5.sanity ≤ 0 ∧ s5.gameOver = false then playEnding s5 else s5
    { s6 with coldPos := ⟨p0.x, p0.y + 3, p0.z - 2⟩ }

/-- The cooperative event loop: a frame callback firing, the dread
interval firing, the message fade-out timeout firing, or the 900 ms
ending timeout firing. -/
inductive Event where
  | frameTick (inp : FrameInput)
  | dreadTick
  | hideTimeout
  | endingTimeout

/-- Event semantics. A timer only has an effect while its slot is pending
(a cleared `setInterval`/`setTimeout` never fires); the ending timeout is
never cancelled anywhere in the source, so it fires whenever it was
scheduled. -/
def runEvent (e : Event) (s : GameState) : GameState :=
  match e with
  | Event.frameTick inp => frame inp s
  | Event.dreadTick => if s.dreadLoopActive then dreadLoopTick s else s
  | Event.hideTimeout =>
      if s.fadeOutPending.isSome then
        { s with overlayVisible := false, fadeOutPending := none }
      else s
  | Event.endingTimeout =>
      if s.endingPending then playEnding { s with endingPending := false }
      else s

def runTrace (s : GameState) : List Event → GameState
  | [] => s
  | e :: tr => runTrace (runEvent e s) tr

/-- The session state once Playing begins and the dread loop is armed:
sanity 100, cursor 0, player at the origin, enemies at `ENEMY_STARTS`,
`enemyDist` 999, and the initial scene-parameter values set during setup. -/
def initState : GameState where
  sanity := 100
  gameStarted := true
  gameOver := false
  survivalTime := 0
  flickerTime := 0
  dreadIndex := 0
  dreadLoopActive := true
  fadeOutPending := none
  overlayVisible := false
  overlayText := defaultMsg
  emittedIdx := []
  demonPlayed := false
  endingPending := false
  endingShown := false
  playEndingCount := 0
  stompPlaying := false
  wasMoving := false
  playerPos := ⟨0, 0, 0⟩
  e1 := ⟨3, 0, 3⟩
  e2 := ⟨-10, 0, 6⟩
  e3 := ⟨6, 0, -10⟩
  enemyDist := 999
  torchIntensity := 2
  torchRange := 8
  fogDensity := 0.055
  vignetteWeight := 5
  aberration := 3
  grain := 5
  cameraAlpha := Real.pi / 2
  cameraBeta := 1.1
  cameraTarget := ⟨0, 0, 0⟩
  torchPos := ⟨0, 2, 0⟩
  coldPos := ⟨0, 3, -2⟩

/-- An unobstructed swept move: the resolver just adds the displacement. -/
def resolveFree : Vec3 → Vec3 → Vec3 := fun p v => vadd p v

/-- A fully blocked swept move (collision stops the mover in place). -/
def resolvePinned : Vec3 → Vec3 → Vec3 := fun p _ => p

/-- A frame input with the given delta time and resolver, no keys held,
all random samples 0, and axis-aligned camera vectors. -/
def mkInput (dt : ℝ) (res : Vec3 → Vec3 → Vec3) : FrameInput where
  dt := dt
  randFlicker := 0
  randShakeA := 0
  randShakeB := 0
  u11 := 0
  u12 := 0
  u21 := 0
  u22 := 0
  u31 := 0
  u32 := 0
  keyW := false
  keyS := false
  keyA := false
  keyD := false
  camFwd := ⟨0, 0, 1⟩
  camRight := ⟨1, 0, 0⟩
  resolve := res

/-- A delta time that makes enemy 0 (speed 0.95, start `(3,0,3)`, distance
`√18` from the player at the origin) land exactly on the player when the
sanity value is 1 (dread factor 0.99). -/
def dtStar : ℝ := Real.sqrt 18 / (0.95 * (1 + (1 - 1 / 100) * 0.6))

/-- A session schedule: eleven dread-interval firings (sanity 100 → 1),
one frame in which enemy 0 steps exactly onto the player, one frame that
detects the contact and schedules the 900 ms ending timeout, the twelfth
dread firing (sanity 1 → 0) inside that 900 ms window, one frame whose
lose check runs `playEnding`, and then the still-pending ending timeout. -/
def cxTrace : List Event :=
  List.replicate 11 Event.dreadTick ++
    [ Event.frameTick (mkInput dtStar resolvePinned),
      Event.frameTick (mkInput 0 resolvePinned),
      Event.dreadTick,
      Event.frameTick (mkInput 0 resolvePinned),
      Event.endingTimeout ]

/-- Real-time admissibility of a schedule for the dread interval: the
interval period (6.5 s) is far longer than a frame (~16 ms), so at least
one frame callback runs between consecutive interval firings. The Boolean
index records whether a frame has run since the last interval firing. -/
inductive DreadSpaced : Bool → List Event → Prop where
  | nil : ∀ b, DreadSpaced b []
  | frame : ∀ b inp tr, DreadSpaced true tr →
      DreadSpaced b (Event.frameTick inp :: tr)
  | dread : ∀ tr, DreadSpaced false tr →
      DreadSpaced true (Event.dreadTick :: tr)
  | hide : ∀ b tr, DreadSpaced b tr → DreadSpaced b (Event.hideTimeout :: tr)
  | ending : ∀ b tr, DreadSpaced b tr →
      DreadSpaced b (Event.endingTimeout :: tr)

/-- Sanity stays a bounded resource. -/
def SanBound (s : GameState) : Prop := 0 ≤ s.sanity ∧ s.sanity ≤ 100

/-- Invariant for the dread-drain analysis over `DreadSpaced` schedules:
while playing, sanity is exactly the initial 100 minus 9 per emitted
message (clamped at 0), the cursor never passes 12, every emitted index is
below 12, and — if a frame has run since the last interval firing — a
cursor at 12 implies the session is already over. -/
def C10Inv (b : Bool) (s : GameState) : Prop :=
  s.gameStarted = true ∧ s.dreadIndex ≤ 12 ∧
    s.sanity = max 0 (100 - 9 * (s.dreadIndex : ℝ)) ∧
    (b = true → s.dreadIndex = 12 → s.gameOver = true) ∧
    (∀ i ∈ s.emittedIdx, i < 12)

end

/-! ### Frame-effect lemmas -/

lemma frame_sanity (inp : FrameInput) (s : GameState) :
    (frame inp s).sanity = s.sanity := by
  simp only [frame, stepAtmos, stepEnemies, stepStomp, stepMove, playEnding]
  split_ifs <;> rfl

lemma frame_dreadIndex (inp : FrameInput) (s : GameState) :
    (frame inp s).dreadIndex = s.dreadIndex := by
  simp only [frame, stepAtmos, stepEnemies, stepStomp, stepMove, playEnding]
  split_ifs <;> rfl

lemma frame_gameStarted (inp : FrameInput) (s : GameState) :
    (frame inp s).gameStarted = s.gameStarted := by
  simp only [frame, stepAtmos, stepEnemies, stepStomp, stepMove, playEnding]
  split_ifs <;> rfl

lemma frame_dreadLoopActive (inp : FrameInput) (s : GameState) :
    (frame inp s).dreadLoopActive = s.dreadLoopActive := by
  simp only [frame, stepAtmos, stepEnemies, stepStomp, stepMove, playEnding]
  split_ifs <;> rfl

lemma frame_fadeOutPending (inp : FrameInput) (s : GameState) :
    (frame inp s).fadeOutPending = s.fadeOutPending := by
  simp only [frame, stepAtmos, stepEnemies, stepStomp, stepMove, playEnding]
  split_ifs <;> rfl

lemma frame_overlayText (inp : FrameInput) (s : GameState) :
    (frame inp s).overlayText = s.overlayText := by
  simp only [frame, stepAtmos, stepEnemies, stepStomp, stepMove, playEnding]
  split_ifs <;> rfl

lemma frame_emittedIdx (inp : FrameInput) (s : GameState) :
    (frame inp s).emittedIdx = s.emittedIdx := by
  simp only [frame, stepAtmos, stepEnemies, stepStomp, stepMove, playEnding]
  split_ifs <;> rfl

lemma frame_flickerTime (inp : FrameInput) (s : GameState) :
    (frame inp s).flickerTime = s.flickerTime + inp.dt := by
  simp only [frame, stepAtmos, stepEnemies, stepStomp, stepMove, playEnding]
  split_ifs <;> rfl

lemma frame_aberration (inp : FrameInput) (s : GameState) :
    (frame inp s).aberration = aberrationAmount s.sanity s.enemyDist := by
  simp only [frame, stepAtmos, stepEnemies, stepStomp, stepMove, playEnding]
  split_ifs <;> rfl

lemma frame_fogDensity (inp : FrameInput) (s : GameState) :
    (frame inp s).fogDensity = 0.055 + (1 - s.sanity / 100) * 0.07 := by
  simp only [frame, stepAtmos, stepEnemies, stepStomp, stepMove, playEnding]
  split_ifs <;> rfl

lemma frame_cameraTarget (inp : FrameInput) (s : GameState) :
    (frame inp s).cameraTarget =
      ⟨s.playerPos.x, s.playerPos.y + 0.5, s.playerPos.z⟩ := by
  simp only [frame, stepAtmos, stepEnemies, stepStomp, stepMove, playEnding]
  split_ifs <;> rfl

lemma frame_torchPos (inp : FrameInput) (s : GameState) :
    (frame inp s).torchPos =
      ⟨s.playerPos.x, s.playerPos.y + 1.2, s.playerPos.z⟩ := by
  simp only [frame, stepAtmos, stepEnemies, stepStomp, stepMove, playEnding]
  split_ifs <;> rfl

lemma frame_gated (inp : FrameInput) (s : GameState)
    (h : s.gameStarted = false ∨ s.gameOver = true) :
    frame inp s = stepAtmos inp s := by
  have h1 : (stepAtmos inp s).gameStarted = s.gameStarted := rfl
  have h2 : (stepAtmos inp s).gameOver = s.gameOver := rfl
  simp only [frame]
  rcases h with h | h <;> simp [h1, h2, h]

lemma frame_playing_survivalTime (inp : FrameInput) (s : GameState)
    (h1 : s.gameStarted = true) (h2 : s.gameOver = false) :
    (frame inp s).survivalTime = s.survivalTime + inp.dt := by
  simp only [frame, stepAtmos, stepEnemies, stepStomp, stepMove, playEnding]
  simp only [h1, h2, Bool.not_true, Bool.or_false, Bool.false_eq_true, if_false]
  split_ifs <;> rfl

lemma frame_playing_e1 (inp : FrameInput) (s : GameState)
    (h1 : s.gameStarted = true) (h2 : s.gameOver = false) :
    (frame inp s).e1 =
      (enemyFrame s.playerPos 0.95 (1 - s.sanity / 100) inp.dt inp.u11
        inp.u12 s.e1).1 := by
  simp only [frame, stepAtmos, stepEnemies, stepStomp, stepMove, playEnding]
  simp only [h1, h2, Bool.not_true, Bool.or_false, Bool.false_eq_true, if_false]
  split_ifs <;> rfl

lemma frame_playing_e2 (inp : FrameInput) (s : GameState)
    (h1 : s.gameStarted = true) (h2 : s.gameOver = false) :
    (frame inp s).e2 =
      (enemyFrame s.playerPos 1.15 (1 - s.sanity / 100) inp.dt inp.u21
        inp.u22 s.e2).1 := by
  simp only [frame, stepAtmos, stepEnemies, stepStomp, stepMove, playEnding]
  simp only [h1, h2, Bool.not_true, Bool.or_false, Bool.false_eq_true, if_false]
  split_ifs <;> rfl

lemma frame_playing_e3 (inp : FrameInput) (s : GameState)
    (h1 : s.gameStarted = true) (h2 : s.gameOver = false) :
    (frame inp s).e3 =
      (enemyFrame s.playerPos 1.35 (1 - s.sanity / 100) inp.dt inp.u31
        inp.u32 s.e3).1 := by
  simp only [frame, stepAtmos, stepEnemies, stepStomp, stepMove, playEnding]
  simp only [h1, h2, Bool.not_true, Bool.or_false, Bool.false_eq_true, if_false]
  split_ifs <;> rfl

lemma frame_playing_enemyDist (inp : FrameInput) (s : GameState)
    (h1 : s.gameStarted = true) (h2 : s.gameOver = false) :
    (frame inp s).enemyDist =
      minDist3
        (enemyFrame s.playerPos 0.95 (1 - s.sanity / 100) inp.dt inp.u11
          inp.u12 s.e1).2.1
        (enemyFrame s.playerPos 1.15 (1 - s.sanity / 100) inp.dt inp.u21
          inp.u22 s.e2).2.1
        (enemyFrame s.playerPos 1.35 (1 - s.sanity / 100) inp.dt inp.u31
          inp.u32 s.e3).2.1 := by
  simp only [frame, stepAtmos, stepEnemies, stepStomp, stepMove, playEnding]
  simp only [h1, h2, Bool.not_true, Bool.or_false, Bool.false_eq_true, if_false]
  split_ifs <;> rfl

lemma frame_playing_demonPlayed (inp : FrameInput) (s : GameState)
    (h1 : s.gameStarted = true) (h2 : s.gameOver = false) :
    (frame inp s).demonPlayed =
      (s.demonPlayed
        || (enemyFrame s.playerPos 0.95 (1 - s.sanity / 100) inp.dt inp.u11
            inp.u12 s.e1).2.2
        || (enemyFrame s.playerPos 1.15 (1 - s.sanity / 100) inp.dt inp.u21
            inp.u22 s.e2).2.2
        || (enemyFrame s.playerPos 1.35 (1 - s.sanity / 100) inp.dt inp.u31
            inp.u32 s.e3).2.2) := by
  simp only [frame, stepAtmos, stepEnemies, stepStomp, stepMove, playEnding]
  simp only [h1, h2, Bool.not_true, Bool.or_false, Bool.false_eq_true, if_false]
  split_ifs <;> rfl

lemma frame_playing_endingPending (inp : FrameInput) (s : GameState)
    (h1 : s.gameStarted = true) (h2 : s.gameOver = false) :
    (frame inp s).endingPending =
      (s.endingPending
        || ((enemyFrame s.playerPos 0.95 (1 - s.sanity / 100) inp.dt inp.u11
            inp.u12 s.e1).2.2 && !s.demonPlayed)
        || ((enemyFrame s.playerPos 1.15 (1 - s.sanity / 100) inp.dt inp.u21
            inp.u22 s.e2).2.2
            && !(s.demonPlayed
                || (enemyFrame s.playerPos 0.95 (1 - s.sanity / 100) inp.dt
                    inp.u11 inp.u12 s.e1).2.2))
        || ((enemyFrame s.playerPos 1.35 (1 - s.sanity / 100) inp.dt inp.u31
            inp.u32 s.e3).2.2
            && !(s.demonPlayed
                || (enemyFrame s.playerPos 0.95 (1 - s.sanity / 100) inp.dt
                    inp.u11 inp.u12 s.e1).2.2
                || (enemyFrame s.playerPos 1.15 (1 - s.sanity / 100) inp.dt
                    inp.u21 inp.u22 s.e2).2.2))) := by
  simp only [frame, stepAtmos, stepEnemies, stepStomp, stepMove, playEnding]
  simp only [h1, h2, Bool.not_true, Bool.or_false, Bool.false_eq_true, if_false]
  split_ifs <;> rfl

lemma frame_playing_gameOver (inp : FrameInput) (s : GameState)
    (h1 : s.gameStarted = true) (h2 : s.gameOver = false) :
    ((frame inp s).gameOver = true ↔ s.sanity ≤ 0) := by
  simp only [frame, stepAtmos, stepEnemies, stepStomp, stepMove, playEnding]
  simp only [h1, h2, Bool.not_true, Bool.or_false, Bool.false_eq_true, if_false]
  split_ifs <;> simp_all

lemma frame_playing_count (inp : FrameInput) (s : GameState)
    (h1 : s.gameStarted = true) (h2 : s.gameOver = false) :
    (frame inp s).playEndingCount =
      if s.sanity ≤ 0 then s.playEndingCount + 1 else s.playEndingCount := by
  simp only [frame, stepAtmos, stepEnemies, stepStomp, stepMove, playEnding]
  simp only [h1, h2, Bool.not_true, Bool.or_false, Bool.false_eq_true, if_false]
  split_ifs <;> simp_all

lemma frame_playing_playerPos (inp : FrameInput) (s : GameState)
    (h1 : s.gameStarted = true) (h2 : s.gameOver = false) :
    (frame inp s).playerPos =
      (let mv : Vec3 :=
        if isMovingInput inp then
          ⟨(desiredMove inp).x, -0.08, (desiredMove inp).z⟩
        else ⟨0, -0.08, 0⟩
       let p := inp.resolve s.playerPos mv
       if 0 < p.y then (⟨p.x, 0, p.z⟩ : Vec3) else p) := by
  simp only [frame, stepAtmos, stepEnemies, stepStomp, stepMove, playEnding]
  simp only [h1, h2, Bool.not_true, Bool.or_false, Bool.false_eq_true, if_false]
  split_ifs <;> simp_all

/-! ### Scheduler-effect lemmas -/

lemma trigger_gameOver (s : GameState) (h : s.gameOver = true) :
    triggerDreadMessage s = s := by
  simp [triggerDreadMessage, h]

lemma trigger_exhausted (s : GameState)
    (h : DREAD_MESSAGES.length ≤ s.dreadIndex) :
    triggerDreadMessage s = s := by
  unfold triggerDreadMessage
  split_ifs <;> rfl

lemma trigger_fires (s : GameState) (h1 : s.gameOver = false)
    (h2 : s.dreadIndex < DREAD_MESSAGES.length) :
    triggerDreadMessage s =
      { s with
        overlayText := DREAD_MESSAGES.getD s.dreadIndex defaultMsg,
        overlayVisible := true,
        emittedIdx := s.emittedIdx ++ [s.dreadIndex],
        dreadIndex := s.dreadIndex + 1,
        sanity := max 0 (s.sanity - SANITY_DRAIN_PER_MESSAGE),
        fadeOutPending :=
          some (min 6000
            (2500 + (DREAD_MESSAGES.getD s.dreadIndex defaultMsg).length * 45)) } := by
  simp [triggerDreadMessage, h1, Nat.not_le.mpr h2]

lemma dreadTick_cancels (s : GameState) (hA : s.dreadLoopActive = true)
    (h : s.gameOver = true ∨ DREAD_MESSAGES.length ≤ s.dreadIndex) :
    runEvent Event.dreadTick s = { s with dreadLoopActive := false } := by
  simp [runEvent, hA, dreadLoopTick, h]

lemma dreadTick_fires (s : GameState) (hA : s.dreadLoopActive = true)
    (h1 : s.gameOver = false) (h2 : s.dreadIndex < DREAD_MESSAGES.length) :
    runEvent Event.dreadTick s = triggerDreadMessage s := by
  have : ¬(s.gameOver = true ∨ DREAD_MESSAGES.length ≤ s.dreadIndex) := by
    simp [h1, Nat.not_le.mpr h2]
  simp [runEvent, hA, dreadLoopTick, this]

lemma endingTimeout_fires (s : GameState) (h : s.endingPending = true) :
    runEvent Event.endingTimeout s =
      playEnding { s with endingPending := false } := by
  simp [runEvent, h]

lemma runTrace_append (s : GameState) (a b : List Event) :
    runTrace s (a ++ b) = runTrace (runTrace s a) b := by
  induction a generalizing s with
  | nil => rfl
  | cons e tr ih => simp [runTrace, ih]

lemma max_zero_sub_max_zero (a b : ℝ) (hb : 0 ≤ b) :
    max 0 (max 0 a - b) = max 0 (a - b) := by
  rcases le_total a 0 with h | h
  · rw [max_eq_left h]
    have h2 : 0 - b ≤ 0 := by linarith
    have h3 : a - b ≤ 0 := by linarith
    rw [max_eq_left h2, max_eq_left h3]
  · rw [max_eq_right h]

lemma DREAD_MESSAGES_length : DREAD_MESSAGES.length = 16 := rfl

/-! ### Invariant machinery -/

lemma runEvent_sanity_cases (e : Event) (s : GameState) :
    (runEvent e s).sanity = s.sanity ∨
      (runEvent e s).sanity = max 0 (s.sanity - SANITY_DRAIN_PER_MESSAGE) := by
  cases e with
  | frameTick inp => exact Or.inl (frame_sanity inp s)
  | dreadTick =>
      simp only [runEvent, dreadLoopTick, triggerDreadMessage]
      split_ifs <;> simp
  | hideTimeout =>
      simp only [runEvent]
      split_ifs <;> simp
  | endingTimeout =>
      simp only [runEvent, playEnding]
      split_ifs <;> simp

lemma sanBound_step (e : Event) (s : GameState) (h : SanBound s) :
    SanBound (runEvent e s) := by
  rcases runEvent_sanity_cases e s with hc | hc <;>
      unfold SanBound at * <;> rw [hc]
  · exact h
  · refine ⟨le_max_left _ _, max_le (by norm_num) ?_⟩
    unfold SANITY_DRAIN_PER_MESSAGE
    linarith [h.2]

lemma sanBound_run (tr : List Event) (s : GameState) (h : SanBound s) :
    SanBound (runTrace s tr) := by
  induction tr generalizing s with
  | nil => exact h
  | cons e tr ih => exact ih (runEvent e s) (sanBound_step e s h)

lemma runEvent_dreadIndex_cases (e : Event) (s : GameState) :
    (runEvent e s).dreadIndex = s.dreadIndex ∨
      ((runEvent e s).dreadIndex = s.dreadIndex + 1 ∧
        s.dreadIndex < DREAD_MESSAGES.length) := by
  cases e with
  | frameTick inp => exact Or.inl (frame_dreadIndex inp s)
  | dreadTick =>
      simp only [runEvent, dreadLoopTick, triggerDreadMessage]
      split_ifs <;> simp_all
  | hideTimeout =>
      simp only [runEvent]
      split_ifs <;> simp
  | endingTimeout =>
      simp only [runEvent, playEnding]
      split_ifs <;> simp

lemma dreadIndex_le_step (e : Event) (s : GameState)
    (h : s.dreadIndex ≤ DREAD_MESSAGES.length) :
    (runEvent e s).dreadIndex ≤ DREAD_MESSAGES.length := by
  rcases runEvent_dreadIndex_cases e s with hc | hc
  · omega
  · omega

lemma dreadIndex_le_run (tr : List Event) (s : GameState)
    (h : s.dreadIndex ≤ DREAD_MESSAGES.length) :
    (runTrace s tr).dreadIndex ≤ DREAD_MESSAGES.length := by
  induction tr generalizing s with
  | nil => exact h
  | cons e tr ih => exact ih (runEvent e s) (dreadIndex_le_step e s h)

lemma c10Inv_frame (inp : FrameInput) (s : GameState) (b : Bool)
    (hinv : C10Inv b s) : C10Inv true (frame inp s) := by
  obtain ⟨hst, hidx, hsan, _, hem⟩ := hinv
  refine ⟨by rw [frame_gameStarted]; exact hst,
    by rw [frame_dreadIndex]; exact hidx,
    by rw [frame_sanity, frame_dreadIndex]; exact hsan, ?_, ?_⟩
  · intro _ h12
    rw [frame_dreadIndex] at h12
    by_cases hgo : s.gameOver = true
    · rw [frame_gated inp s (Or.inr hgo)]
      exact hgo
    · have hgo' : s.gameOver = false := by
        cases hg : s.gameOver
        · rfl
        · exact absurd hg hgo
      have hz : s.sanity ≤ 0 := by
        rw [hsan, h12]
        have : ((12 : ℕ) : ℝ) = 12 := by norm_num
        rw [this]
        have : max (0 : ℝ) (100 - 9 * 12) = 0 := max_eq_left (by norm_num)
        rw [this]
      exact (frame_playing_gameOver inp s hst hgo').mpr hz
  · rw [frame_emittedIdx]
    exact hem

lemma c10Inv_dread (s : GameState)
    (hinv : C10Inv true s) : C10Inv false (runEvent Event.dreadTick s) := by
  obtain ⟨hst, hidx, hsan, h12, hem⟩ := hinv
  by_cases hA : s.dreadLoopActive = true
  · by_cases hguard : s.gameOver = true ∨ DREAD_MESSAGES.length ≤ s.dreadIndex
    · rw [dreadTick_cancels s hA hguard]
      exact ⟨hst, hidx, hsan, by simp, hem⟩
    · push_neg at hguard
      have h1 : s.gameOver = false := by
        cases hg : s.gameOver
        · rfl
        · exact absurd hg hguard.1
      have h2 : s.dreadIndex < DREAD_MESSAGES.length := hguard.2
      have hne12 : s.dreadIndex ≠ 12 := by
        intro hc
        rw [h12 rfl hc] at h1
        exact Bool.noConfusion h1
      have hle11 : s.dreadIndex ≤ 11 := by omega
      rw [dreadTick_fires s hA h1 h2, trigger_fires s h1 h2]
      refine ⟨hst, by simpa using by omega, ?_, by simp, ?_⟩
      · show max 0 (s.sanity - SANITY_DRAIN_PER_MESSAGE) =
          max 0 (100 - 9 * ((s.dreadIndex + 1 : ℕ) : ℝ))
        rw [hsan]
        unfold SANITY_DRAIN_PER_MESSAGE
        rw [max_zero_sub_max_zero _ _ (by norm_num)]
        congr 1
        push_cast
        ring
      · intro i hi
        simp only [List.mem_append, List.mem_singleton] at hi
        rcases hi with hi | hi
        · exact hem i hi
        · omega
  · have hs : runEvent Event.dreadTick s = s := by
      simp [runEvent]
      intro hc
      exact absurd hc hA
    rw [hs]
    exact ⟨hst, hidx, hsan, by simp, hem⟩

lemma c10Inv_hide (s : GameState) (b : Bool)
    (hinv : C10Inv b s) : C10Inv b (runEvent Event.hideTimeout s) := by
  obtain ⟨hst, hidx, hsan, h12, hem⟩ := hinv
  simp only [runEvent]
  split_ifs <;> exact ⟨hst, hidx, hsan, h12, hem⟩

lemma c10Inv_ending (s : GameState) (b : Bool)
    (hinv : C10Inv b s) : C10Inv b (runEvent Event.endingTimeout s) := by
  obtain ⟨hst, hidx, hsan, h12, hem⟩ := hinv
  simp only [runEvent, playEnding]
  split_ifs
  · exact ⟨hst, hidx, hsan, by simp, hem⟩
  · exact ⟨hst, hidx, hsan, h12, hem⟩

lemma c10_run (tr : List Event) (b : Bool) (s : GameState)
    (hsp : DreadSpaced b tr) (hinv : C10Inv b s) :
    (runTrace s tr).gameStarted = true ∧ (runTrace s tr).dreadIndex ≤ 12 ∧
      (runTrace s tr).sanity =
        max 0 (100 - 9 * ((runTrace s tr).dreadIndex : ℝ)) ∧
      (∀ i ∈ (runTrace s tr).emittedIdx, i < 12) := by
  induction hsp generalizing s with
  | nil b => exact ⟨hinv.1, hinv.2.1, hinv.2.2.1, hinv.2.2.2.2⟩
  | frame b inp tr htr ih => exact ih (frame inp s) (c10Inv_frame inp s b hinv)
  | dread tr htr ih => exact ih _ (c10Inv_dread s hinv)
  | hide b tr htr ih => exact ih _ (c10Inv_hide s b hinv)
  | ending b tr htr ih => exact ih _ (c10Inv_ending s b hinv)

/-! ### Enemy-update branch lemmas -/

lemma enemyFrame_far (player pos : Vec3) (speed df dt u1 u2 : ℝ)
    (h : TELEPORT_FAR < norm3 (vsub player pos)) :
    enemyFrame player speed df dt u1 u2 pos =
      (⟨player.x + Real.cos (u1 * (Real.pi * 2)) * (9 + u2 * 5), 0,
          player.z + Real.sin (u1 * (Real.pi * 2)) * (9 + u2 * 5)⟩,
        norm3 (vsub player pos), false) := by
  unfold enemyFrame
  rw [if_pos h]

lemma enemyFrame_mid (player pos : Vec3) (speed df dt u1 u2 : ℝ)
    (h1 : ¬TELEPORT_FAR < norm3 (vsub player pos))
    (h2 : 0.5 < norm3 (vsub player pos)) :
    enemyFrame player speed df dt u1 u2 pos =
      (⟨pos.x + (vnormalize (vsub player pos)).x * (speed * (1 + df * 0.6) * dt),
          0,
          pos.z + (vnormalize (vsub player pos)).z * (speed * (1 + df * 0.6) * dt)⟩,
        norm3 (vsub player pos), false) := by
  unfold enemyFrame
  rw [if_neg h1, if_pos h2]

lemma enemyFrame_contact (player pos : Vec3) (speed df dt u1 u2 : ℝ)
    (h1 : ¬TELEPORT_FAR < norm3 (vsub player pos))
    (h2 : ¬0.5 < norm3 (vsub player pos)) :
    enemyFrame player speed df dt u1 u2 pos =
      (pos, norm3 (vsub player pos), true) := by
  unfold enemyFrame
  rw [if_neg h1, if_neg h2]

/-! ### Concrete geometric facts -/

lemma norm3_nonneg (v : Vec3) : 0 ≤ norm3 v := Real.sqrt_nonneg _

lemma norm3_zero : norm3 (vsub ⟨0, 0, 0⟩ ⟨0, 0, 0⟩) = 0 := by
  unfold norm3 vsub
  norm_num

lemma norm3_e1_start : norm3 (vsub ⟨0, 0, 0⟩ ⟨3, 0, 3⟩) = Real.sqrt 18 := by
  unfold norm3 vsub
  norm_num

lemma norm3_e2_start : norm3 (vsub ⟨0, 0, 0⟩ ⟨-10, 0, 6⟩) = Real.sqrt 136 := by
  unfold norm3 vsub
  norm_num

lemma norm3_e3_start : norm3 (vsub ⟨0, 0, 0⟩ ⟨6, 0, -10⟩) = Real.sqrt 136 := by
  unfold norm3 vsub
  norm_num

lemma sqrt18_not_far : ¬TELEPORT_FAR < Real.sqrt 18 := by
  unfold TELEPORT_FAR
  push_neg
  have : Real.sqrt 18 < 17 := (Real.sqrt_lt' (by norm_num)).mpr (by norm_num)
  linarith

lemma sqrt18_mid : (0.5 : ℝ) < Real.sqrt 18 :=
  (Real.lt_sqrt (by norm_num)).mpr (by norm_num)

lemma sqrt18_pos : (0 : ℝ) < Real.sqrt 18 := Real.sqrt_pos.mpr (by norm_num)

lemma sqrt136_not_far : ¬TELEPORT_FAR < Real.sqrt 136 := by
  unfold TELEPORT_FAR
  push_neg
  have : Real.sqrt 136 < 17 := (Real.sqrt_lt' (by norm_num)).mpr (by norm_num)
  linarith

lemma sqrt136_mid : (0.5 : ℝ) < Real.sqrt 136 :=
  (Real.lt_sqrt (by norm_num)).mpr (by norm_num)

lemma zero_not_far : ¬TELEPORT_FAR < (0 : ℝ) := by
  unfold TELEPORT_FAR
  norm_num

lemma zero_not_mid : ¬(0.5 : ℝ) < (0 : ℝ) := by norm_num

/-- With delta time `dtStar` and the dread factor at sanity 1, enemy 0
(speed 0.95, start `(3,0,3)`) steps exactly onto the player at the origin. -/
lemma e1_lands :
    (enemyFrame ⟨0, 0, 0⟩ 0.95 (1 - 1 / 100) dtStar 0 0 ⟨3, 0, 3⟩).1 =
      ⟨0, 0, 0⟩ := by
  rw [enemyFrame_mid _ _ _ _ _ _ _
    (by rw [norm3_e1_start]; exact sqrt18_not_far)
    (by rw [norm3_e1_start]; exact sqrt18_mid)]
  have h18 : Real.sqrt 18 ≠ 0 := ne_of_gt sqrt18_pos
  have hc : (0.95 : ℝ) * (1 + (1 - 1 / 100) * 0.6) ≠ 0 := by norm_num
  unfold vnormalize vscale dtStar
  rw [norm3_e1_start]
  ext <;> simp only [vsub] <;> field_simp <;> ring

lemma frame_playing_gameOver_false (inp : FrameInput) (s : GameState)
    (h1 : s.gameStarted = true) (h2 : s.gameOver = false)
    (h3 : ¬s.sanity ≤ 0) : (frame inp s).gameOver = false := by
  cases hg : (frame inp s).gameOver
  · rfl
  · exact absurd ((frame_playing_gameOver inp s h1 h2).mp hg) h3

lemma frame_playing_gameOver_true (inp : FrameInput) (s : GameState)
    (h1 : s.gameStarted = true) (h2 : s.gameOver = false)
    (h3 : s.sanity ≤ 0) : (frame inp s).gameOver = true :=
  (frame_playing_gameOver inp s h1 h2).mpr h3

/-- State of the core fields after `k` consecutive dread-interval firings
from the session start (no frame has run yet). -/
lemma dreads_core (k : ℕ) (hk : k ≤ 12) :
    (runTrace initState (List.replicate k Event.dreadTick)).sanity =
        max 0 (100 - 9 * (k : ℝ)) ∧
    (runTrace initState (List.replicate k Event.dreadTick)).dreadIndex = k ∧
    (runTrace initState (List.replicate k Event.dreadTick)).gameStarted = true ∧
    (runTrace initState (List.replicate k Event.dreadTick)).gameOver = false ∧
    (runTrace initState (List.replicate k Event.dreadTick)).dreadLoopActive = true ∧
    (runTrace initState (List.replicate k Event.dreadTick)).demonPlayed = false ∧
    (runTrace initState (List.replicate k Event.dreadTick)).endingPending = false ∧
    (runTrace initState (List.replicate k Event.dreadTick)).playEndingCount = 0 ∧
    (runTrace initState (List.replicate k Event.dreadTick)).playerPos = ⟨0, 0, 0⟩ ∧
    (runTrace initState (List.replicate k Event.dreadTick)).e1 = ⟨3, 0, 3⟩ ∧
    (runTrace initState (List.replicate k Event.dreadTick)).e2 = ⟨-10, 0, 6⟩ ∧
    (runTrace initState (List.replicate k Event.dreadTick)).e3 = ⟨6, 0, -10⟩ := by
  induction k with
  | zero =>
      refine ⟨?_, by simp [runTrace, initState], by simp [runTrace, initState],
        by simp [runTrace, initState], by simp [runTrace, initState],
        by simp [runTrace, initState], by simp [runTrace, initState],
        by simp [runTrace, initState], by simp [runTrace, initState],
        by simp [runTrace, initState], by simp [runTrace, initState],
        by simp [runTrace, initState]⟩
      simp only [runTrace, List.replicate]
      show initState.sanity = max 0 (100 - 9 * ((0 : ℕ) : ℝ))
      have : max (0 : ℝ) (100 - 9 * ((0 : ℕ) : ℝ)) = 100 := by
        push_cast
        rw [max_eq_right (by norm_num)]
        norm_num
      rw [this]
      rfl
  | succ k ih =>
      obtain ⟨hsan, hidx, hst, hgo, hA, hdm, hep, hct, hpp, he1, he2, he3⟩ :=
        ih (by omega)
      have hlt : (runTrace initState (List.replicate k Event.dreadTick)).dreadIndex
          < DREAD_MESSAGES.length := by
        rw [hidx, DREAD_MESSAGES_length]
        omega
      have hrw : runTrace initState (List.replicate (k + 1) Event.dreadTick) =
          triggerDreadMessage (runTrace initState (List.replicate k Event.dreadTick)) := by
        rw [List.replicate_succ', runTrace_append]
        show runEvent Event.dreadTick _ = _
        rw [dreadTick_fires _ hA hgo hlt]
      rw [hrw, trigger_fires _ hgo hlt]
      refine ⟨?_, by simp [hidx], by simp [hst], by simp [hgo], by simp [hA],
        by simp [hdm], by simp [hep], by simp [hct], by simp [hpp],
        by simp [he1], by simp [he2], by simp [he3]⟩
      show max 0 (_ - SANITY_DRAIN_PER_MESSAGE) = _
      rw [hsan]
      unfold SANITY_DRAIN_PER_MESSAGE
      rw [max_zero_sub_max_zero _ _ (by norm_num)]
      congr 1
      push_cast
      ring

/-! ### Claim theorems -/

/-- C1: sanity is initialized to 100, and along every schedule of frame
callbacks and timer firings (the only code paths that can mutate it — the
dread-message drain is clamped at 0 and nothing ever adds to sanity), the
value stays within [0, 100] after every step. -/
theorem sanity_initialized_and_bounded :
    initState.sanity = 100 ∧
    ∀ tr : List Event, 0 ≤ (runTrace initState tr).sanity ∧
      (runTrace initState tr).sanity ≤ 100 := by
  refine ⟨rfl, fun tr => ?_⟩
  have h0 : SanBound initState := by
    constructor
    · show (0 : ℝ) ≤ 100
      norm_num
    · show (100 : ℝ) ≤ 100
      norm_num
  exact sanBound_run tr initState h0

/-- C4: the dread cursor never decreases at any event, never exceeds the
script length on any schedule from the session start, and once it equals
the script length a trigger is a complete no-op (no message, no drain, no
state change at all) while the next interval firing deactivates the
repeating timer. -/
theorem dread_cursor_monotone_bounded_exhaustion_idle :
    (∀ (e : Event) (s : GameState), s.dreadIndex ≤ (runEvent e s).dreadIndex) ∧
    (∀ tr : List Event,
      (runTrace initState tr).dreadIndex ≤ DREAD_MESSAGES.length) ∧
    (∀ s : GameState, DREAD_MESSAGES.length ≤ s.dreadIndex →
      triggerDreadMessage s = s) ∧
    (∀ s : GameState, DREAD_MESSAGES.length ≤ s.dreadIndex →
      (runEvent Event.dreadTick s).dreadLoopActive = false) := by
  refine ⟨?_, ?_, ?_, ?_⟩
  · intro e s
    rcases runEvent_dreadIndex_cases e s with hc | hc
    · omega
    · omega
  · intro tr
    apply dreadIndex_le_run
    show (0 : ℕ) ≤ DREAD_MESSAGES.length
    omega
  · intro s h
    exact trigger_exhausted s h
  · intro s h
    cases hA : s.dreadLoopActive
    · simp [runEvent, hA]
    · rw [dreadTick_cancels s hA (Or.inr h)]

/-- C4 witness: at a state whose cursor equals the script length (16), a
trigger changes nothing and the interval firing cancels the loop. -/
theorem dread_cursor_witness :
    triggerDreadMessage { initState with dreadIndex := 16 } =
      { initState with dreadIndex := 16 } ∧
    (runEvent Event.dreadTick
      { initState with dreadIndex := 16 }).dreadLoopActive = false :=
  ⟨dread_cursor_monotone_bounded_exhaustion_idle.2.2.1 _
      (by rw [DREAD_MESSAGES_length]),
    dread_cursor_monotone_bounded_exhaustion_idle.2.2.2 _
      (by rw [DREAD_MESSAGES_length])⟩

/-- C8: a dread-interval firing in the armed, unexhausted, not-game-over
state emits exactly the message at the cursor to the overlay, makes it
visible, advances the cursor by one, drains sanity by 9 clamped at 0, and
replaces whatever fade-out timer was pending with a single new one whose
duration is `min(6000, 2500 + 45 × message length)` — in particular the
duration is capped at 6000 ms and at most one hide timer is pending
afterwards, regardless of the previously pending one. -/
theorem dread_trigger_contract (s : GameState) (h1 : s.gameOver = false)
    (h2 : s.dreadIndex < DREAD_MESSAGES.length)
    (h3 : s.dreadLoopActive = true) :
    (runEvent Event.dreadTick s).overlayText =
      DREAD_MESSAGES.getD s.dreadIndex defaultMsg ∧
    (runEvent Event.dreadTick s).overlayVisible = true ∧
    (runEvent Event.dreadTick s).emittedIdx = s.emittedIdx ++ [s.dreadIndex] ∧
    (runEvent Event.dreadTick s).dreadIndex = s.dreadIndex + 1 ∧
    (runEvent Event.dreadTick s).sanity =
      max 0 (s.sanity - SANITY_DRAIN_PER_MESSAGE) ∧
    (runEvent Event.dreadTick s).fadeOutPending =
      some (min 6000
        (2500 + (DREAD_MESSAGES.getD s.dreadIndex defaultMsg).length * 45)) ∧
    min 6000
      (2500 + (DREAD_MESSAGES.getD s.dreadIndex defaultMsg).length * 45)
        ≤ 6000 := by
  rw [dreadTick_fires s h3 h1 h2, trigger_fires s h1 h2]
  exact ⟨rfl, rfl, rfl, rfl, rfl, rfl, min_le_left _ _⟩

/-- C8 witness: at the session start with an artificially pending stale
hide timer of 9999 ms, the first firing replaces it with the computed
duration of message 0 and advances the cursor to 1. -/
theorem dread_trigger_contract_witness :
    (runEvent Event.dreadTick
      { initState with fadeOutPending := some 9999 }).fadeOutPending =
      some (min 6000 (2500 + (DREAD_MESSAGES.getD 0 defaultMsg).length * 45)) ∧
    (runEvent Event.dreadTick
      { initState with fadeOutPending := some 9999 }).dreadIndex = 1 :=
  ⟨(dread_trigger_contract _ rfl (by decide) rfl).2.2.2.2.2.1,
    (dread_trigger_contract _ rfl (by decide) rfl).2.2.2.1⟩

/-- C9: once the session is over (or before it has started), a frame
callback is exactly the atmosphere-and-tracking section: it mutates no
gameplay state — sanity, survival time, player position and all enemy
positions are untouched — yet the atmosphere parameters are recomputed
from the current sanity and stored enemy distance, the flicker clock still
advances, and the camera target and torch position still track the
player. -/
theorem gated_frame_recomputes_atmosphere_only (inp : FrameInput)
    (s : GameState) (h : s.gameStarted = false ∨ s.gameOver = true) :
    frame inp s = stepAtmos inp s ∧
    (frame inp s).sanity = s.sanity ∧
    (frame inp s).survivalTime = s.survivalTime ∧
    (frame inp s).playerPos = s.playerPos ∧
    (frame inp s).e1 = s.e1 ∧ (frame inp s).e2 = s.e2 ∧
    (frame inp s).e3 = s.e3 ∧
    (frame inp s).dreadIndex = s.dreadIndex ∧
    (frame inp s).flickerTime = s.flickerTime + inp.dt ∧
    (frame inp s).aberration = aberrationAmount s.sanity s.enemyDist ∧
    (frame inp s).fogDensity = 0.055 + (1 - s.sanity / 100) * 0.07 ∧
    (frame inp s).cameraTarget =
      ⟨s.playerPos.x, s.playerPos.y + 0.5, s.playerPos.z⟩ ∧
    (frame inp s).torchPos =
      ⟨s.playerPos.x, s.playerPos.y + 1.2, s.playerPos.z⟩ := by
  have hg := frame_gated inp s h
  refine ⟨hg, frame_sanity inp s, by rw [hg]; rfl, by rw [hg]; rfl,
    by rw [hg]; rfl, by rw [hg]; rfl, by rw [hg]; rfl,
    frame_dreadIndex inp s, frame_flickerTime inp s, frame_aberration inp s,
    frame_fogDensity inp s, frame_cameraTarget inp s, frame_torchPos inp s⟩

/-- C9 witness: a concrete game-over state. -/
theorem gated_frame_witness :
    frame (mkInput 1 resolveFree) { initState with gameOver := true } =
      stepAtmos (mkInput 1 resolveFree) { initState with gameOver := true } :=
  (gated_frame_recomputes_atmosphere_only (mkInput 1 resolveFree)
    { initState with gameOver := true } (Or.inr rfl)).1

/-- C10: along any schedule in which at least one frame runs between
consecutive dread-interval firings (the interval is 6.5 s, a frame is
about 16 ms) the cursor never passes 12, so the scheduler never reaches
the 16-message end of the script, messages 13-16 (indices 12-15) are never
emitted in any session, and once the cursor is 12 (sanity 0 after the
twelfth 9-point drain from 100) the very next frame makes the session
Lost. -/
theorem sessions_lost_before_script_exhausts :
    ∀ tr : List Event, DreadSpaced true tr →
      (runTrace initState tr).dreadIndex ≤ 12 ∧
      (runTrace initState tr).dreadIndex < DREAD_MESSAGES.length ∧
      (∀ i ∈ (runTrace initState tr).emittedIdx, i < 12) ∧
      ((runTrace initState tr).dreadIndex = 12 →
        ∀ inp : FrameInput,
          (frame inp (runTrace initState tr)).gameOver = true) := by
  intro tr hsp
  have hinit : C10Inv true initState := by
    refine ⟨rfl, ?_, ?_, ?_, ?_⟩
    · show (0 : ℕ) ≤ 12
      omega
    · show (100 : ℝ) = max 0 (100 - 9 * ((0 : ℕ) : ℝ))
      push_cast
      rw [max_eq_right (by norm_num)]
      norm_num
    · intro _ h12
      exact absurd h12 (by decide)
    · intro i hi
      have : initState.emittedIdx = [] := rfl
      rw [this] at hi
      exact absurd hi (List.not_mem_nil i)
  obtain ⟨hst, hidx, hsan, hem⟩ := c10_run tr true initState hsp hinit
  refine ⟨hidx, by rw [DREAD_MESSAGES_length]; omega, hem, ?_⟩
  intro h12 inp
  by_cases hgo : (runTrace initState tr).gameOver = true
  · rw [frame_gated _ _ (Or.inr hgo)]
    exact hgo
  · have hgo' : (runTrace initState tr).gameOver = false := by
      cases hg : (runTrace initState tr).gameOver
      · rfl
      · exact absurd hg hgo
    apply frame_playing_gameOver_true _ _ hst hgo'
    rw [hsan, h12]
    push_cast
    rw [max_eq_left (by norm_num)]

/-- C10 witness: the empty schedule is admissible; at the session start
the cursor is 0 ≤ 12 and below the script length. -/
theorem sessions_lost_witness :
    (runTrace initState []).dreadIndex ≤ 12 ∧
    (runTrace initState []).dreadIndex < DREAD_MESSAGES.length :=
  ⟨(sessions_lost_before_script_exhausts [] (DreadSpaced.nil true)).1,
    (sessions_lost_before_script_exhausts [] (DreadSpaced.nil true)).2.1⟩

/-- C3 counterexample: in a playing frame whose stored enemy distance is
the stale 999 while all three enemies actually stand on the player, the
aberration written by that frame is computed from the stale value (it
comes out as 3), not from the same frame's updated minimum distance 0
(which would give 15): the atmosphere section runs before — not after —
the enemy update. -/
theorem frame_order_claim_false :
    (frame (mkInput 0 resolveFree)
      { initState with
        e1 := ⟨0, 0, 0⟩, e2 := ⟨0, 0, 0⟩, e3 := ⟨0, 0, 0⟩ }).aberration ≠
      aberrationAmount
        ((frame (mkInput 0 resolveFree)
          { initState with
            e1 := ⟨0, 0, 0⟩, e2 := ⟨0, 0, 0⟩, e3 := ⟨0, 0, 0⟩ }).sanity)
        ((frame (mkInput 0 resolveFree)
          { initState with
            e1 := ⟨0, 0, 0⟩, e2 := ⟨0, 0, 0⟩, e3 := ⟨0, 0, 0⟩ }).enemyDist) := by
  rw [frame_aberration, frame_sanity, frame_playing_enemyDist _ _ rfl rfl]
  show aberrationAmount 100 999 ≠ aberrationAmount 100 _
  rw [show ({ initState with
      e1 := ⟨0, 0, 0⟩, e2 := ⟨0, 0, 0⟩, e3 := ⟨0, 0, 0⟩ } :
      GameState).playerPos = ⟨0, 0, 0⟩ from rfl]
  rw [enemyFrame_contact _ _ _ _ _ _ _
      (by rw [norm3_zero]; exact zero_not_far)
      (by rw [norm3_zero]; exact zero_not_mid),
    enemyFrame_contact _ _ _ _ _ _ _
      (by rw [norm3_zero]; exact zero_not_far)
      (by rw [norm3_zero]; exact zero_not_mid),
    enemyFrame_contact _ _ _ _ _ _ _
      (by rw [norm3_zero]; exact zero_not_far)
      (by rw [norm3_zero]; exact zero_not_mid)]
  rw [show minDist3 (norm3 (vsub ⟨0, 0, 0⟩ ⟨0, 0, 0⟩), true).1
        (norm3 (vsub ⟨0, 0, 0⟩ ⟨0, 0, 0⟩), true).1
        (norm3 (vsub ⟨0, 0, 0⟩ ⟨0, 0, 0⟩), true).1 =
      minDist3 0 0 0 by rw [norm3_zero]]
  have hm : minDist3 0 0 0 = 0 := by
    unfold minDist3
    norm_num
  rw [hm]
  unfold aberrationAmount
  rw [max_eq_left (by norm_num : (1 : ℝ) - 999 / 7 ≤ 0),
    show max (0 : ℝ) (1 - 0 / 7) = 1 by rw [max_eq_right (by norm_num)]; norm_num]
  norm_num

/-- C3 amended: within a frame tick the atmosphere section runs first,
before the phase gate and before the enemy, movement and lose updates: the
chromatic aberration and fog it writes are functions of the current sanity
and of the enemy proximity stored by the PREVIOUS frame, and the camera
target it writes tracks the player position from BEFORE this frame's
movement; the actual order is atmosphere/tracking, phase gate, survival
timer, enemy update, stomp gating, locomotion, lose check. -/
theorem frame_atmosphere_uses_previous_proximity :
    ∀ (inp : FrameInput) (s : GameState),
      (frame inp s).aberration = aberrationAmount s.sanity s.enemyDist ∧
      (frame inp s).fogDensity = 0.055 + (1 - s.sanity / 100) * 0.07 ∧
      (frame inp s).cameraTarget =
        ⟨s.playerPos.x, s.playerPos.y + 0.5, s.playerPos.z⟩ :=
  fun inp s =>
    ⟨frame_aberration inp s, frame_fogDensity inp s, frame_cameraTarget inp s⟩

/-- C7 counterexample: at full sanity (100) with every enemy far outside
the proximity radius (stored minimum distance 999), the chromatic
aberration computed by the frame is the baseline 3, not 0: the per-frame
law has a constant base term. -/
theorem aberration_nonzero_at_full_sanity :
    (frame (mkInput 0 resolveFree)
      { initState with
        gameOver := true, e1 := ⟨0, 0, 100⟩, e2 := ⟨0, 0, -100⟩,
        e3 := ⟨100, 0, 0⟩ }).aberration = 3 ∧
    (3 : ℝ) ≠ 0 := by
  constructor
  · rw [frame_aberration]
    show aberrationAmount 100 999 = 3
    unfold aberrationAmount
    rw [max_eq_left (by norm_num : (1 : ℝ) - 999 / 7 ≤ 0)]
    norm_num
  · norm_num

/-- C7 amended: the chromatic aberration written by every frame is
`3 + sanityFraction² × 18 + proximityFactor × 12` with
`proximityFactor = max(0, 1 − enemyDist / 7)` — the quadratic-sanity and
proximity response the claim describes, but sitting on a constant
baseline of 3, so it is 3 (not 0) at full sanity with no enemy nearby. -/
theorem aberration_law_with_baseline :
    ∀ (inp : FrameInput) (s : GameState),
      (frame inp s).aberration =
        3 + (1 - s.sanity / 100) * (1 - s.sanity / 100) * 18
          + max 0 (1 - s.enemyDist / 7) * 12 :=
  fun inp s => frame_aberration inp s

/-- C5: when an enemy's sampled distance exceeds the far threshold 17, the
update relocates it to `player + (cos θ, 0, sin θ) × r` with
`θ = u1·2π ∈ [0, 2π)` and `r = 9 + 5·u2 ∈ [9, 14]`; with the player on the
ground plane the relocated distance equals r, hence lies in [9, 14] and
exceeds the 0.5 contact threshold, and the branch reports no catch. -/
theorem enemy_teleport_recovery (player pos : Vec3) (speed df dt u1 u2 : ℝ)
    (hy : player.y = 0)
    (hfar : TELEPORT_FAR < norm3 (vsub player pos))
    (hu1 : 0 ≤ u1) (hu1' : u1 < 1) (hu2 : 0 ≤ u2) (hu2' : u2 < 1) :
    (enemyFrame player speed df dt u1 u2 pos).1 =
      ⟨player.x + Real.cos (u1 * (Real.pi * 2)) * (9 + u2 * 5), 0,
        player.z + Real.sin (u1 * (Real.pi * 2)) * (9 + u2 * 5)⟩ ∧
    0 ≤ u1 * (Real.pi * 2) ∧ u1 * (Real.pi * 2) < 2 * Real.pi ∧
    9 ≤ 9 + u2 * 5 ∧ 9 + u2 * 5 ≤ 14 ∧
    norm3 (vsub player (enemyFrame player speed df dt u1 u2 pos).1) =
      9 + u2 * 5 ∧
    0.5 < norm3 (vsub player (enemyFrame player speed df dt u1 u2 pos).1) ∧
    (enemyFrame player speed df dt u1 u2 pos).2.2 = false := by
  have hrw := enemyFrame_far player pos speed df dt u1 u2 hfar
  have hr0 : (0 : ℝ) ≤ 9 + u2 * 5 := by linarith
  have hdist :
      norm3 (vsub player (enemyFrame player speed df dt u1 u2 pos).1) =
        9 + u2 * 5 := by
    rw [hrw]
    show norm3 (vsub player
      ⟨player.x + Real.cos (u1 * (Real.pi * 2)) * (9 + u2 * 5), 0,
        player.z + Real.sin (u1 * (Real.pi * 2)) * (9 + u2 * 5)⟩) = 9 + u2 * 5
    unfold norm3 vsub
    have hcs := Real.cos_sq_add_sin_sq (u1 * (Real.pi * 2))
    have harg :
        (player.x - (player.x + Real.cos (u1 * (Real.pi * 2)) * (9 + u2 * 5))) ^ 2
          + (player.y - 0) ^ 2
          + (player.z - (player.z + Real.sin (u1 * (Real.pi * 2)) * (9 + u2 * 5))) ^ 2
          = (9 + u2 * 5) ^ 2 := by
      rw [hy]
      linear_combination ((9 + u2 * 5) ^ 2) * hcs
    rw [harg, Real.sqrt_sq hr0]
  refine ⟨by rw [hrw], mul_nonneg hu1 (by positivity), ?_, by linarith,
    by linarith, hdist, by rw [hdist]; linarith, by rw [hrw]⟩
  have hπ : (0 : ℝ) < Real.pi * 2 := by positivity
  calc u1 * (Real.pi * 2) < 1 * (Real.pi * 2) :=
        mul_lt_mul_of_pos_right hu1' hπ
    _ = 2 * Real.pi := by ring

/-- C5 witness: player at the origin, enemy at `(18, 0, 0)` (distance 18 >
17), both random samples 0: the relocation lands at distance 9 and is not
a catch. -/
theorem enemy_teleport_recovery_witness :
    (enemyFrame ⟨0, 0, 0⟩ 0.95 0 1 0 0 ⟨18, 0, 0⟩).2.2 = false ∧
    norm3 (vsub ⟨0, 0, 0⟩ (enemyFrame ⟨0, 0, 0⟩ 0.95 0 1 0 0 ⟨18, 0, 0⟩).1) =
      9 + 0 * 5 := by
  have h18 : norm3 (vsub (⟨0, 0, 0⟩ : Vec3) ⟨18, 0, 0⟩) = 18 := by
    unfold norm3 vsub
    norm_num
    rw [show (324 : ℝ) = 18 ^ 2 by norm_num, Real.sqrt_sq (by norm_num)]
  have hfar : TELEPORT_FAR < norm3 (vsub (⟨0, 0, 0⟩ : Vec3) ⟨18, 0, 0⟩) := by
    rw [h18]
    unfold TELEPORT_FAR
    norm_num
  have h := enemy_teleport_recovery ⟨0, 0, 0⟩ ⟨18, 0, 0⟩ 0.95 0 1 0 0 rfl hfar
    le_rfl (by norm_num) le_rfl (by norm_num)
  exact ⟨h.2.2.2.2.2.2.2, h.2.2.2.2.2.1⟩

lemma stepMove_moving (inp : FrameInput) (s : GameState)
    (hmv : isMovingInput inp = true) :
    stepMove inp s =
      (let dm := desiredMove inp
       let mv : Vec3 := ⟨dm.x, -0.08, dm.z⟩
       let p := inp.resolve s.playerPos mv
       let p2 := if 0 < p.y then (⟨p.x, 0, p.z⟩ : Vec3) else p
       { s with playerPos := p2, wasMoving := true }) := by
  unfold stepMove
  rw [hmv]
  simp

/-- C6: with only the Forward key held, camera-forward `(0,0,1)` (already
horizontal and unit after the vertical-zeroing renormalization), speed 1.2
and dt 0.1, the desired displacement before the gravity bias is exactly
`(0, 0, 0.12)`; the submitted move replaces its vertical component with
the -0.08 gravity bias, and after an unobstructed swept move the final
vertical position is clamped to 0 exactly when it ended above the ground
plane. -/
theorem locomotion_forward_scenario (inp : FrameInput) (s : GameState)
    (hW : inp.keyW = true) (hS : inp.keyS = false) (hA : inp.keyA = false)
    (hD : inp.keyD = false) (hf : inp.camFwd = ⟨0, 0, 1⟩)
    (hdt : inp.dt = 0.1) (hres : inp.resolve = resolveFree) :
    desiredMove inp = ⟨0, 0, 0.12⟩ ∧
    (stepMove inp s).playerPos =
      (if 0 < s.playerPos.y + -0.08 then
        (⟨s.playerPos.x + 0, 0, s.playerPos.z + 0.12⟩ : Vec3)
      else ⟨s.playerPos.x + 0, s.playerPos.y + -0.08, s.playerPos.z + 0.12⟩) ∧
    (0 < s.playerPos.y - 0.08 → (stepMove inp s).playerPos.y = 0) ∧
    (stepMove inp s).playerPos.y ≤ 0 := by
  have hmv : isMovingInput inp = true := by
    unfold isMovingInput
    rw [hW]
    simp
  have hsum : moveInputSum inp = ⟨0, 0, 1⟩ := by
    unfold moveInputSum
    rw [hW, hS, hA, hD, hf]
    simp only [if_true, if_false, Bool.false_eq_true]
    show vadd ⟨0, 0, 0⟩ (vnormalize ⟨0, 0, 1⟩) = ⟨0, 0, 1⟩
    unfold vnormalize vscale norm3 vadd
    norm_num [Real.sqrt_one]
  have hdm : desiredMove inp = ⟨0, 0, 0.12⟩ := by
    unfold desiredMove
    rw [hsum, hdt]
    unfold vnormalize vscale norm3 MOVE_SPEED
    norm_num [Real.sqrt_one]
  have hpos : (stepMove inp s).playerPos =
      (if 0 < s.playerPos.y + -0.08 then
        (⟨s.playerPos.x + 0, 0, s.playerPos.z + 0.12⟩ : Vec3)
      else ⟨s.playerPos.x + 0, s.playerPos.y + -0.08, s.playerPos.z + 0.12⟩) := by
    rw [stepMove_moving inp s hmv]
    simp only [hdm, hres]
    unfold resolveFree vadd
    rfl
  refine ⟨hdm, hpos, ?_, ?_⟩
  · intro hup
    rw [hpos, if_pos (by linarith)]
  · rw [hpos]
    split_ifs with h
    · norm_num
    · simp only []
      linarith [not_lt.mp h]

/-- C6 witness: player at `(0, 0.2, 0)`; the unobstructed move ends at
height 0.12 above the ground, so the clamp takes effect and the final
height is 0. -/
theorem locomotion_forward_scenario_witness :
    desiredMove { mkInput 0.1 resolveFree with keyW := true } =
      ⟨0, 0, 0.12⟩ ∧
    (stepMove { mkInput 0.1 resolveFree with keyW := true }
      { initState with playerPos := ⟨0, 0.2, 0⟩ }).playerPos.y = 0 := by
  have h := locomotion_forward_scenario
    { mkInput 0.1 resolveFree with keyW := true }
    { initState with playerPos := ⟨0, 0.2, 0⟩ }
    rfl rfl rfl rfl rfl rfl rfl
  refine ⟨h.1, ?_⟩
  have h2 := h.2.2.1 (by show (0 : ℝ) < 0.2 - 0.08; norm_num)
  exact h2

/-- C2: the lose sequence `playEnding` can fire twice within one session.
Schedule: eleven dread firings bring sanity to 1; a frame in which enemy 0
steps exactly onto the player; the next frame detects the contact and
schedules the 900 ms ending timeout (the one-shot `demonPlayed` latch
guards only this contact path); the twelfth dread firing inside that
window brings sanity to 0; the next frame's lose check calls `playEnding`
(first fire, `gameOver := true`); the still-pending — never cancelled —
ending timeout then calls `playEnding` again (second fire): the call
counter ends at 2. -/
theorem lose_transition_double_fire :
    (runTrace initState cxTrace).playEndingCount = 2 ∧
    (runTrace initState cxTrace).gameOver = true := by
  obtain ⟨hsan, hidx, hst, hgo, hloop, hdm, hep, hct, hpp, he1, he2, he3⟩ :=
    dreads_core 11 (by omega)
  set S11 := runTrace initState (List.replicate 11 Event.dreadTick) with hS11def
  have hs11 : S11.sanity = 1 := by
    rw [hsan]
    push_cast
    rw [max_eq_right (by norm_num)]
    norm_num
  have hsplit : runTrace initState cxTrace =
      runEvent Event.endingTimeout
        (frame (mkInput 0 resolvePinned)
          (runEvent Event.dreadTick
            (frame (mkInput 0 resolvePinned)
              (frame (mkInput dtStar resolvePinned) S11)))) := by
    unfold cxTrace
    rw [runTrace_append]
    rfl
  -- state A: after the landing frame
  set A := frame (mkInput dtStar resolvePinned) S11 with hAdef
  have hA_st : A.gameStarted = true := by rw [hAdef, frame_gameStarted]; exact hst
  have hA_go : A.gameOver = false := by
    rw [hAdef]
    exact frame_playing_gameOver_false _ _ hst hgo (by rw [hs11]; norm_num)
  have hA_sanity : A.sanity = 1 := by rw [hAdef, frame_sanity]; exact hs11
  have hA_idx : A.dreadIndex = 11 := by rw [hAdef, frame_dreadIndex]; exact hidx
  have hA_loop : A.dreadLoopActive = true := by
    rw [hAdef, frame_dreadLoopActive]; exact hloop
  have hA_ct : A.playEndingCount = 0 := by
    rw [hAdef, frame_playing_count _ _ hst hgo, hs11, hct]
    norm_num
  have hA_pp : A.playerPos = ⟨0, 0, 0⟩ := by
    rw [hAdef, frame_playing_playerPos _ _ hst hgo]
    simp [isMovingInput, mkInput, resolvePinned, hpp]
  have hA_e1 : A.e1 = ⟨0, 0, 0⟩ := by
    rw [hAdef, frame_playing_e1 _ _ hst hgo, hpp, hs11, he1]
    simp only [mkInput]
    exact e1_lands
  have hA_dm : A.demonPlayed = false := by
    rw [hAdef, frame_playing_demonPlayed _ _ hst hgo, hpp, hs11, he1, he2, he3,
      hdm]
    simp only [mkInput]
    rw [enemyFrame_mid _ _ _ _ _ _ _
        (by rw [norm3_e1_start]; exact sqrt18_not_far)
        (by rw [norm3_e1_start]; exact sqrt18_mid),
      enemyFrame_mid _ _ _ _ _ _ _
        (by rw [norm3_e2_start]; exact sqrt136_not_far)
        (by rw [norm3_e2_start]; exact sqrt136_mid),
      enemyFrame_mid _ _ _ _ _ _ _
        (by rw [norm3_e3_start]; exact sqrt136_not_far)
        (by rw [norm3_e3_start]; exact sqrt136_mid)]
    simp
  have hA_ep : A.endingPending = false := by
    rw [hAdef, frame_playing_endingPending _ _ hst hgo, hpp, hs11, he1, he2,
      he3, hdm, hep]
    simp only [mkInput]
    rw [enemyFrame_mid _ _ _ _ _ _ _
        (by rw [norm3_e1_start]; exact sqrt18_not_far)
        (by rw [norm3_e1_start]; exact sqrt18_mid),
      enemyFrame_mid _ _ _ _ _ _ _
        (by rw [norm3_e2_start]; exact sqrt136_not_far)
        (by rw [norm3_e2_start]; exact sqrt136_mid),
      enemyFrame_mid _ _ _ _ _ _ _
        (by rw [norm3_e3_start]; exact sqrt136_not_far)
        (by rw [norm3_e3_start]; exact sqrt136_mid)]
    simp
  -- state B: the contact frame (dt = 0)
  set B := frame (mkInput 0 resolvePinned) A with hBdef
  have hB_st : B.gameStarted = true := by rw [hBdef, frame_gameStarted]; exact hA_st
  have hB_go : B.gameOver = false := by
    rw [hBdef]
    exact frame_playing_gameOver_false _ _ hA_st hA_go (by rw [hA_sanity]; norm_num)
  have hB_sanity : B.sanity = 1 := by rw [hBdef, frame_sanity]; exact hA_sanity
  have hB_idx : B.dreadIndex = 11 := by rw [hBdef, frame_dreadIndex]; exact hA_idx
  have hB_loop : B.dreadLoopActive = true := by
    rw [hBdef, frame_dreadLoopActive]; exact hA_loop
  have hB_ct : B.playEndingCount = 0 := by
    rw [hBdef, frame_playing_count _ _ hA_st hA_go, hA_sanity, hA_ct]
    norm_num
  have hB_ep : B.endingPending = true := by
    rw [hBdef, frame_playing_endingPending _ _ hA_st hA_go, hA_pp, hA_e1,
      hA_dm, hA_ep]
    rw [enemyFrame_contact _ _ _ _ _ _ _
        (by rw [norm3_zero]; exact zero_not_far)
        (by rw [norm3_zero]; exact zero_not_mid)]
    simp
  -- state C: the twelfth dread-interval firing
  set C := runEvent Event.dreadTick B with hCdef
  have hlt : B.dreadIndex < DREAD_MESSAGES.length := by
    rw [hB_idx, DREAD_MESSAGES_length]
    omega
  have hCrw : C = triggerDreadMessage B := by
    rw [hCdef, dreadTick_fires B hB_loop hB_go hlt]
  have hCrec := trigger_fires B hB_go hlt
  have hC_st : C.gameStarted = true := by rw [hCrw, hCrec]; exact hB_st
  have hC_go : C.gameOver = false := by rw [hCrw, hCrec]; exact hB_go
  have hC_sanity : C.sanity ≤ 0 := by
    rw [hCrw, hCrec]
    show max 0 (B.sanity - SANITY_DRAIN_PER_MESSAGE) ≤ 0
    rw [hB_sanity]
    unfold SANITY_DRAIN_PER_MESSAGE
    rw [max_eq_left (by norm_num)]
  have hC_ep : C.endingPending = true := by rw [hCrw, hCrec]; exact hB_ep
  have hC_ct : C.playEndingCount = 0 := by rw [hCrw, hCrec]; exact hB_ct
  -- state D: the frame whose lose check fires playEnding
  set D := frame (mkInput 0 resolvePinned) C with hDdef
  have hD_ct : D.playEndingCount = 1 := by
    rw [hDdef, frame_playing_count _ _ hC_st hC_go, if_pos hC_sanity, hC_ct]
  have hD_ep : D.endingPending = true := by
    rw [hDdef, frame_playing_endingPending _ _ hC_st hC_go, hC_ep]
    simp
  -- state E: the 900 ms ending timeout still fires
  rw [hsplit, endingTimeout_fires D hD_ep]
  constructor
  · show ({ D with endingPending := false } : GameState).playEndingCount + 1 = 2
    simp [hD_ct]
  · rfl
